import Mathlib

/-!
Shallow embedding of the civiq6 repository (a Qt-style front-end for the
Vimba machine-vision SDK) and proofs about its frame-delivery pipeline,
recorder state machine, device registry and capture-session bookkeeping.

Modules embedded (from the repository source):
- `civiq6/devices.py`   : `VimbaCameraDevice`, `VimbaDevices.defaultVideoInput`,
                          `VimbaRunner.cameraChangeHandler`
- `civiq6/camera.py`    : `VimbaCamera.setActive`, `VimbaCamera.cameraFormat`,
                          `VimbaCameraFormat`, `FrameProducer.run`,
                          `FrameProducer.queue_frame`
- `civiq6/camera2.py`   : `_StreamingThread.run`
- `civiq6/capture.py`   : `VimbaCaptureSession.setCamera`,
                          `VimbaCaptureSession._setArray`,
                          `VimbaImageCapture.captureToFile`,
                          `VimbaImageCapture._setArray`, `VimbaVideoRecorder`
- `src/civiq6/capture.py` (second source tree) : `COMPATIBLE_FORMATS`,
                          `VimbaCaptureSession._setFrame`

Python floats appearing in the code (frame rates) are modelled as `ℚ`;
all values in the claims are exact small rationals.  Frame buffers are
modelled as `List Nat` (byte lists).  Emitted Qt signals are modelled by
explicit counters returned next to the new state.
-/

namespace Civiq

/-- Subset of `vimba.PixelFormat` used by the repository: the keys of
`COMPATIBLE_FORMATS`, the mono formats listed in
`VimbaVideoRecorder.record`, and a representative colour format. -/
inductive PixelFormat where
  | Mono8
  | Mono10
  | Mono10p
  | Mono12
  | Mono12Packed
  | Mono12p
  | Mono14
  | Mono16
  | Bgr8
  | Rgb8
  deriving DecidableEq

/-- Subset of `QVideoFrameFormat.PixelFormat` used by the code. -/
inductive QVideoPixelFormat where
  | Format_Y8
  | Format_Y16
  | Format_Invalid
  deriving DecidableEq

/-- Embeds `COMPATIBLE_FORMATS` from `src/civiq6/capture.py` (and, identically,
`civiq6/capture2.py`): the pixel-format translation table.  `none` models a
key that is absent from the Python dict. -/
def COMPATIBLE_FORMATS : PixelFormat → Option QVideoPixelFormat
  | PixelFormat.Mono8 => some QVideoPixelFormat.Format_Y8
  | PixelFormat.Mono16 => some QVideoPixelFormat.Format_Y16
  | _ => none

/-- A Vimba frame: pixel data with width, height and pixel format
(`vimba.Frame` as used by the code: `get_pixel_format`, `get_width`,
`get_height`, `get_buffer`). -/
structure Frame where
  pixelFormat : PixelFormat
  width : Nat
  height : Nat
  buffer : List Nat
  deriving DecidableEq

/-- A `QVideoFrame` as constructed by `_setFrame`: its frame format
(pixel format and size) and the mapped data written into it, `none` when
the frame was never mapped and no bytes were copied. -/
structure QVideoFrame where
  format : QVideoPixelFormat
  width : Nat
  height : Nat
  data : Option (List Nat)
  deriving DecidableEq

/-- What each sink received from one `VimbaCaptureSession._setFrame` call
(`src/civiq6/capture.py`): `none` means the sink was absent or got nothing. -/
structure FanoutEffects where
  imageCaptureGot : Option Frame
  recorderGot : Option Frame
  videoSinkGot : Option QVideoFrame
  deriving DecidableEq

namespace VimbaCaptureSession

/-- Embeds `VimbaCaptureSession._setFrame` from `src/civiq6/capture.py` lines 99-126.
The image capturer and the recorder, when set, receive the frame itself.
The video sink, when set, receives a `QVideoFrame` built from the
translation-table lookup `COMPATIBLE_FORMATS.get(fmt, Format_Invalid)`;
the frame's bytes are copied into it only when the looked-up format is not
`Format_Invalid` (the `map`/`get_frame_data`/`unmap` block is guarded by
that test), and `setVideoFrame` is then called with the result. -/
def _setFrame (hasImageCapture hasRecorder hasVideoSink : Bool)
    (frame : Frame) : FanoutEffects :=
  let pixelFormat :=
    (COMPATIBLE_FORMATS frame.pixelFormat).getD QVideoPixelFormat.Format_Invalid
  { imageCaptureGot := if hasImageCapture then some frame else none
    recorderGot := if hasRecorder then some frame else none
    videoSinkGot :=
      if hasVideoSink then
        some { format := pixelFormat
               width := frame.width
               height := frame.height
               data :=
                 if pixelFormat ≠ QVideoPixelFormat.Format_Invalid then
                   some frame.buffer
                 else
                   none }
      else
        none }

end VimbaCaptureSession

/-- A frame array (`numpy` image) as passed through `_setArray`; modelled
abstractly as its byte contents. -/
abbrev Arr := List Nat

/-- What each sink received from one `VimbaCaptureSession._setArray` call
(`civiq6/capture.py` lines 136-146): the array sink, image capturer and
recorder, when set, each receive the array. -/
structure ArrayFanoutEffects where
  arraySinkGot : Option Arr
  imageCaptureGot : Option Arr
  recorderGot : Option Arr
  deriving DecidableEq

namespace VimbaCaptureSession

/-- Embeds `VimbaCaptureSession._setArray` from `civiq6/capture.py` lines 136-146:
each registered sink receives the array unconditionally. -/
def _setArray (hasArraySink hasImageCapture hasRecorder : Bool)
    (array : Arr) : ArrayFanoutEffects :=
  { arraySinkGot := if hasArraySink then some array else none
    imageCaptureGot := if hasImageCapture then some array else none
    recorderGot := if hasRecorder then some array else none }

end VimbaCaptureSession

/-! ### Recorder state machine (`civiq6/capture.py`, `VimbaVideoRecorder`) -/

/-- Embeds `VimbaVideoRecorder.RecorderState`. -/
inductive RecorderState where
  | StoppedState
  | RecordingState
  | PausedState
  deriving DecidableEq

/-- A `cv2.VideoWriter` as opened by `record()`:
`cv2.VideoWriter(path, fourcc, fps, size, isColor)`. -/
structure VideoWriter where
  path : String
  fourcc : String
  fps : ℚ
  width : Int
  height : Int
  isColor : Bool
  deriving DecidableEq

/-- The camera features read through a `vimba.Camera` handle
(`AcquisitionFrameRate`, `Width`, `Height`, pixel format). -/
structure CamFeatures where
  acquisitionFrameRate : ℚ
  width : Int
  height : Int
  pixelFormat : PixelFormat
  deriving DecidableEq

/-- Embeds `VimbaCameraDevice` from `civiq6/devices.py`: `_Camera` handle (with the
features it would report), `_id` and `_desc`. -/
structure VimbaCameraDevice where
  camera : Option CamFeatures
  id : String
  desc : String
  deriving DecidableEq

namespace VimbaCameraDevice

/-- The default-constructed `VimbaCameraDevice()`: null handle, empty id
and description. -/
def null : VimbaCameraDevice := { camera := none, id := "", desc := "" }

/-- Embeds `VimbaCameraDevice.isNull`: true iff `_Camera is None`. -/
def isNull (d : VimbaCameraDevice) : Bool := d.camera.isNone

/-- Embeds `VimbaCameraDevice.frameRate`: `-1` for an invalid device, otherwise the
camera's `AcquisitionFrameRate` feature. -/
def frameRate (d : VimbaCameraDevice) : ℚ :=
  match d.camera with
  | none => -1
  | some c => c.acquisitionFrameRate

/-- Embeds `VimbaCameraDevice.resolution`: `QSize(-1, -1)` for an invalid device,
otherwise the camera's `Width`/`Height` features. -/
def resolution (d : VimbaCameraDevice) : Int × Int :=
  match d.camera with
  | none => (-1, -1)
  | some c => (c.width, c.height)

/-- Embeds `VimbaCameraDevice.pixelFormat`: `None` for an invalid device. -/
def pixelFormat (d : VimbaCameraDevice) : Option PixelFormat :=
  d.camera.map (fun c => c.pixelFormat)

end VimbaCameraDevice

/-- The mono pixel formats enumerated in `VimbaVideoRecorder.record`
(lines 464-473): these select `isColor = False` for the video writer. -/
def monoFormats : List PixelFormat :=
  [PixelFormat.Mono8, PixelFormat.Mono10, PixelFormat.Mono10p,
   PixelFormat.Mono12, PixelFormat.Mono12Packed, PixelFormat.Mono12p,
   PixelFormat.Mono14, PixelFormat.Mono16]

/-- Embeds `VimbaVideoRecorder` state: output location (`QUrl.toLocalFile` of
`_outputLocation`), media format (extension and FourCC of `_mediaFormat`),
configured frame rate `_frameRate`, configured resolution `_resolution`
(the default `QSize()` is the invalid size `(-1, -1)`), `_recorderState`,
the open `_writer` and `_actualLocation` (`none` for the initial null
`QUrl()`). -/
structure VimbaVideoRecorder where
  outputLocation : String
  mediaFormatExtension : String
  mediaFormatFourcc : String
  frameRate : ℚ
  resWidth : Int
  resHeight : Int
  recorderState : RecorderState
  writer : Option VideoWriter
  actualLocation : Option String
  deriving DecidableEq

namespace VimbaVideoRecorder

/-- The freshly constructed recorder (`__init__`): media format
`VideoCaptureFormat("mp4", "mp4v")`, frame rate `0.0`, invalid resolution,
`StoppedState`, no writer. -/
def init : VimbaVideoRecorder :=
  { outputLocation := ""
    mediaFormatExtension := "mp4"
    mediaFormatFourcc := "mp4v"
    frameRate := 0
    resWidth := -1
    resHeight := -1
    recorderState := RecorderState.StoppedState
    writer := none
    actualLocation := none }

/-- The capture-session environment seen by `record()`: `none` models
`captureSession() is None`; `some none` a session whose `camera()` is
`None`; `some (some d)` a session with a camera whose `cameraDevice()`
is `d`. -/
abbrev RecordEnv := Option (Option VimbaCameraDevice)

/-- Embeds `VimbaVideoRecorder.record` from `civiq6/capture.py` lines 428-494.
Returns the new recorder state together with the number of
`recorderStateChanged` emissions (0 or 1).  From `StoppedState` it returns
unchanged when the session or camera is absent, when both the configured
and the camera frame rate are non-positive, likewise for the resolution,
or when the camera pixel format is `None`; otherwise it opens the writer
`cv2.VideoWriter(path, fourcc, fps, size, isColor)` and moves to
`RecordingState`.  From `PausedState` it resumes without touching the
writer.  From `RecordingState` it does nothing. -/
def record (r : VimbaVideoRecorder) (env : RecordEnv) :
    VimbaVideoRecorder × Nat :=
  if r.recorderState = RecorderState.StoppedState then
    match env with
    | none => (r, 0)
    | some none => (r, 0)
    | some (some dev) =>
      let path := r.outputLocation ++ "." ++ r.mediaFormatExtension
      let fps0 := r.frameRate
      let fpsRes : Option ℚ :=
        if fps0 ≤ 0 then
          if dev.frameRate ≤ 0 then none else some dev.frameRate
        else
          some fps0
      match fpsRes with
      | none => (r, 0)
      | some fps =>
        let size0 := (r.resWidth, r.resHeight)
        let sizeRes : Option (Int × Int) :=
          if size0.1 ≤ 0 ∨ size0.2 ≤ 0 then
            if (dev.resolution).1 ≤ 0 ∨ (dev.resolution).2 ≤ 0 then
              none
            else
              some dev.resolution
          else
            some size0
        match sizeRes with
        | none => (r, 0)
        | some size =>
          match dev.pixelFormat with
          | none => (r, 0)
          | some pf =>
            let isColor := !(monoFormats.contains pf)
            ({ r with
                writer := some
                  { path := path
                    fourcc := r.mediaFormatFourcc
                    fps := fps
                    width := size.1
                    height := size.2
                    isColor := isColor }
                recorderState := RecorderState.RecordingState
                actualLocation := some path }, 1)
  else if r.recorderState = RecorderState.PausedState then
    ({ r with recorderState := RecorderState.RecordingState }, 1)
  else
    (r, 0)

/-- Embeds `VimbaVideoRecorder.pause` (lines 496-506): only `RecordingState`
moves to `PausedState` and emits once; otherwise nothing happens. -/
def pause (r : VimbaVideoRecorder) : VimbaVideoRecorder × Nat :=
  if r.recorderState = RecorderState.RecordingState then
    ({ r with recorderState := RecorderState.PausedState }, 1)
  else
    (r, 0)

/-- Embeds `VimbaVideoRecorder.stop` (lines 508-524): any non-stopped state moves
to `StoppedState`, releases the writer and emits once; when already
stopped nothing happens. -/
def stop (r : VimbaVideoRecorder) : VimbaVideoRecorder × Nat :=
  if r.recorderState ≠ RecorderState.StoppedState then
    ({ r with recorderState := RecorderState.StoppedState, writer := none }, 1)
  else
    (r, 0)

end VimbaVideoRecorder

/-- The recorder transitions permitted by the documented state graph
`Stopped→Recording→(Paused⇄Recording)→Stopped`, plus staying put. -/
def allowedRecorderStep : RecorderState → RecorderState → Prop
  | s, t =>
    s = t ∨
    (s = RecorderState.StoppedState ∧ t = RecorderState.RecordingState) ∨
    (s = RecorderState.RecordingState ∧ t = RecorderState.PausedState) ∨
    (s = RecorderState.PausedState ∧ t = RecorderState.RecordingState) ∨
    (s = RecorderState.RecordingState ∧ t = RecorderState.StoppedState) ∨
    (s = RecorderState.PausedState ∧ t = RecorderState.StoppedState)

instance : DecidablePred (fun p : RecorderState × RecorderState =>
    allowedRecorderStep p.1 p.2) := by
  intro p
  unfold allowedRecorderStep
  infer_instance

/-! ### Frame producer (`civiq6/camera.py` and `civiq6/camera2.py`) -/

/-- A `vimba.Camera` handle as seen by `FrameProducer.run`: its id, and
whether the SDK call `start_streaming` raises when invoked. -/
structure CameraHandle where
  camId : String
  startRaises : Bool
  deriving DecidableEq

/-- The observable outcome of one `run()` of the producer thread. -/
structure RunOutcome where
  readyEmitted : Bool
  streamingStarted : Bool
  stopStreamingCalled : Bool
  raised : Bool
  deriving DecidableEq

namespace FrameProducer

/-- Embeds `FrameProducer.run` from `civiq6/camera.py` lines 215-228.  With no
camera (`self.camera is None`) the `else` branch emits `ready` at once.
With a camera, `start_streaming` is called inside a `try` block and
`ready.emit()` only runs after it returns; if `start_streaming` raises,
the emit is skipped, the `finally` block still calls `stop_streaming`,
and the exception propagates out of `run`.  On the success path the
thread event loop runs until `quit()`, after which the `finally` block
calls `stop_streaming`. -/
def run (camera : Option CameraHandle) : RunOutcome :=
  match camera with
  | none =>
    { readyEmitted := true
      streamingStarted := false
      stopStreamingCalled := false
      raised := false }
  | some c =>
    if c.startRaises then
      { readyEmitted := false
        streamingStarted := false
        stopStreamingCalled := true
        raised := true }
    else
      { readyEmitted := true
        streamingStarted := true
        stopStreamingCalled := true
        raised := false }

end FrameProducer

namespace StreamingThread

/-- Embeds `_StreamingThread.run` from `civiq6/camera2.py` lines 108-121: the same
control flow as `FrameProducer.run`, character for character in the
relevant region. -/
def run (camera : Option CameraHandle) : RunOutcome :=
  match camera with
  | none =>
    { readyEmitted := true
      streamingStarted := false
      stopStreamingCalled := false
      raised := false }
  | some c =>
    if c.startRaises then
      { readyEmitted := false
        streamingStarted := false
        stopStreamingCalled := true
        raised := true }
    else
      { readyEmitted := true
        streamingStarted := true
        stopStreamingCalled := true
        raised := false }

end StreamingThread

/-! ### Python `queue.Queue` and `FrameProducer.queue_frame` -/

/-- Python's `queue.Queue`: `maxsize = 0` means an infinite queue. -/
structure PyQueue (α : Type) where
  maxsize : Nat
  items : List α
  deriving DecidableEq

namespace PyQueue

/-- Embeds `Queue.full()`: true iff `0 < maxsize <= qsize()`. -/
def full (q : PyQueue α) : Bool :=
  decide (0 < q.maxsize ∧ q.maxsize ≤ q.items.length)

/-- Embeds `Queue.put_nowait(a)`: raises `queue.Full` (modelled as `none`) iff the
queue is bounded and at capacity; otherwise appends. -/
def putNowait (q : PyQueue α) (a : α) : Option (PyQueue α) :=
  if 0 < q.maxsize ∧ q.maxsize ≤ q.items.length then
    none
  else
    some { q with items := q.items ++ [a] }

end PyQueue

/-- Embeds `vimba.FrameStatus` as tested by `queue_frame`. -/
inductive FrameStatus where
  | Complete
  | Incomplete
  deriving DecidableEq

namespace FrameProducer

/-- The frame queue as constructed in `VimbaCamera.__init__` line 70:
`queue.Queue()` with the default `maxsize = 0`, i.e. infinite. -/
def frameQueueInit : PyQueue Frame := { maxsize := 0, items := [] }

/-- Embeds `FrameProducer.queue_frame` from `civiq6/camera.py` lines 230-238: a
completed frame is deep-copied and enqueued unless `queue.full()`; a
`queue.Full` from `put_nowait` is swallowed.  (The trailing
`camera.queue_frame(frame)` recycles the SDK buffer and does not touch
the Python queue.) -/
def queue_frame (q : PyQueue Frame) (status : FrameStatus) (frame : Frame) :
    PyQueue Frame :=
  if status = FrameStatus.Complete then
    if !q.full then
      match q.putNowait frame with
      | some q2 => q2
      | none => q
    else
      q
  else
    q

/-- Feeding a burst of completed frames to `queue_frame` with no consumer
draining the queue. -/
def feedFrames (q : PyQueue Frame) (frames : List Frame) : PyQueue Frame :=
  frames.foldl (fun acc f => queue_frame acc FrameStatus.Complete f) q

end FrameProducer

/-! ### Camera active-state machine (`civiq6/camera.py`, `VimbaCamera.setActive`) -/

/-- The `VimbaCamera` state relevant to `setActive`: whether the device is
available (`not cameraDevice().isNull()`, fixed while no device switch
happens) and the `_active` flag. -/
structure VimbaCamera where
  available : Bool
  active : Bool
  deriving DecidableEq

namespace VimbaCamera

/-- Embeds `VimbaCamera.setActive` from `civiq6/camera.py` lines 150-184.  Returns
the new state and the number of `activeChanged` emissions.  An unavailable
camera returns immediately; starting an inactive camera or stopping an
active one flips `_active` and emits once; anything else does nothing. -/
def setActive (c : VimbaCamera) (active : Bool) : VimbaCamera × Nat :=
  if !c.available then
    (c, 0)
  else if !c.active && active then
    ({ c with active := true }, 1)
  else if c.active && !active then
    ({ c with active := false }, 1)
  else
    (c, 0)

/-- Embeds `VimbaCamera.start`: `setActive(True)`. -/
def start (c : VimbaCamera) : VimbaCamera × Nat := c.setActive true

/-- Embeds `VimbaCamera.stop`: `setActive(False)`. -/
def stop (c : VimbaCamera) : VimbaCamera × Nat := c.setActive false

/-- One `setActive` call applied to an accumulated (state, emission count)
pair. -/
def stepCall (p : VimbaCamera × Nat) (b : Bool) : VimbaCamera × Nat :=
  ((p.1.setActive b).1, p.2 + (p.1.setActive b).2)

/-- Apply a sequence of `setActive` calls (`true` for `start()`, `false`
for `stop()`), accumulating the total number of `activeChanged`
emissions. -/
def applyCalls (c : VimbaCamera) (ops : List Bool) : VimbaCamera × Nat :=
  ops.foldl stepCall (c, 0)

end VimbaCamera

/-! ### Capture-session / camera association (`setCamera`) -/

/-- The association state across all capture sessions and cameras:
`sessionCamera s` is session `s`'s `_camera` field, `cameraSession c` is
camera `c`'s `_captureSession` field.  Sessions and cameras are named by
strings. -/
structure World where
  sessionCamera : String → Option String
  cameraSession : String → Option String

namespace World

/-- Embeds `VimbaCaptureSession.setCamera` from `civiq6/capture.py` lines 100-108:
the session's old camera, if any, gets `_removeCaptureSession()` (its
`_captureSession` becomes `None`); the session's `_camera` is replaced;
the new camera, if any, gets `_setCaptureSession(self)`. -/
def setCamera (w : World) (s : String) (camera : Option String) : World :=
  let w1 : World :=
    match w.sessionCamera s with
    | some old =>
      { w with cameraSession := fun c =>
          if c = old then none else w.cameraSession c }
    | none => w
  let w2 : World :=
    { w1 with sessionCamera := fun t =>
        if t = s then camera else w1.sessionCamera t }
  match camera with
  | some c =>
    { w2 with cameraSession := fun d =>
        if d = c then some s else w2.cameraSession d }
  | none => w2

end World

/-- A concrete association state: session `s1` holds camera `camA`, which
points back at `s1`; camera `camB` and session `s2` are free. -/
def exampleWorld : World :=
  { sessionCamera := fun t => if t = "s1" then some "camA" else none
    cameraSession := fun c => if c = "camA" then some "s1" else none }

/-! ### Device registry (`civiq6/devices.py`) -/

namespace VimbaDevices

/-- Embeds `VimbaDevices.defaultVideoInput` from `civiq6/devices.py` lines
168-182: the first enumerated device, or a default-constructed (null)
`VimbaCameraDevice` when the list is empty. -/
def defaultVideoInput (videoInputs : List VimbaCameraDevice) :
    VimbaCameraDevice :=
  match videoInputs with
  | [] => VimbaCameraDevice.null
  | d :: _ => d

end VimbaDevices

/-- Embeds `vimba.CameraEvent` as tested by `cameraChangeHandler`. -/
inductive CameraEvent where
  | Missing
  | Detected
  | Reachable
  | Unreachable
  deriving DecidableEq

namespace VimbaRunner

/-- Embeds `VimbaRunner.cameraChangeHandler` from `civiq6/devices.py` lines
115-130, restricted to its effect on the registry list: on `Missing` and
`Detected` events `_updateCameras` replaces the list wholesale with the
SDK's current enumeration (`get_all_cameras`); other events leave it
untouched.  (The stopping of a running camera on `Missing` does not
change the device list.) -/
def cameraChangeHandler (event : CameraEvent)
    (allCameras : List VimbaCameraDevice)
    (videoInputs : List VimbaCameraDevice) : List VimbaCameraDevice :=
  match event with
  | CameraEvent.Missing => allCameras
  | CameraEvent.Detected => allCameras
  | _ => videoInputs

end VimbaRunner

/-! ### `VimbaCameraFormat` (`civiq6/camera.py` lines 277-346) -/

/-- Embeds `VimbaCameraFormat` attribute state.  `__init__` sets `_frameRate`,
`_pixelFormat` and `_resolution`; `_setResolution` assigns to a
*different* attribute, spelled `_resoultion` in the source (line 345),
which no other method reads — modelled as an `Option` that is `none`
until that assignment creates it. -/
structure VimbaCameraFormat where
  _frameRate : ℚ
  _pixelFormat : Option PixelFormat
  _resolution : Int × Int
  _resoultion : Option (Int × Int)
  deriving DecidableEq

namespace VimbaCameraFormat

/-- The default-constructed `VimbaCameraFormat()`: frame rate `-1.0`, no
pixel format, resolution `QSize(-1, -1)`, and no `_resoultion` attribute
yet. -/
def init : VimbaCameraFormat :=
  { _frameRate := -1
    _pixelFormat := none
    _resolution := (-1, -1)
    _resoultion := none }

/-- Embeds `VimbaCameraFormat.frameRate`. -/
def frameRate (f : VimbaCameraFormat) : ℚ := f._frameRate

/-- Embeds `VimbaCameraFormat._setFrameRate`. -/
def _setFrameRate (f : VimbaCameraFormat) (r : ℚ) : VimbaCameraFormat :=
  { f with _frameRate := r }

/-- Embeds `VimbaCameraFormat.pixelFormat`. -/
def pixelFormat (f : VimbaCameraFormat) : Option PixelFormat := f._pixelFormat

/-- Embeds `VimbaCameraFormat._setPixelFormat`. -/
def _setPixelFormat (f : VimbaCameraFormat) (p : Option PixelFormat) :
    VimbaCameraFormat :=
  { f with _pixelFormat := p }

/-- Embeds `VimbaCameraFormat.resolution`: reads `self._resolution` (line 342). -/
def resolution (f : VimbaCameraFormat) : Int × Int := f._resolution

/-- Embeds `VimbaCameraFormat._setResolution`: writes `self._resoultion`
(line 345) — not the attribute `resolution` reads. -/
def _setResolution (f : VimbaCameraFormat) (r : Int × Int) :
    VimbaCameraFormat :=
  { f with _resoultion := some r }

end VimbaCameraFormat

namespace VimbaCamera

/-- Embeds `VimbaCamera.cameraFormat` from `civiq6/camera.py` lines 85-99: builds
a default `VimbaCameraFormat`, and when the device's camera handle is
present fills it via `_setFrameRate`, `_setPixelFormat` and
`_setResolution` from the camera's features. -/
def cameraFormat (camera : Option CamFeatures) : VimbaCameraFormat :=
  let ret := VimbaCameraFormat.init
  match camera with
  | none => ret
  | some c =>
    ((ret._setFrameRate c.acquisitionFrameRate)._setPixelFormat
        (some c.pixelFormat))._setResolution (c.width, c.height)

end VimbaCamera

/-! ### Still-image capture (`civiq6/capture.py`, `VimbaImageCapture`) -/

/-- Embeds `VimbaImageCapture.FileFormat`. -/
inductive FileFormat where
  | JPEG
  | PNG
  deriving DecidableEq

/-- Embeds `VimbaImageCapture.fileFormatExtension`. -/
def fileFormatExtension : FileFormat → String
  | FileFormat.JPEG => "jpg"
  | FileFormat.PNG => "png"

/-- Embeds `VimbaImageCapture` state: whether `_captureSession` is set, the file
format, the id counter `_id`, the pending frame `_image` and the
`_capturing` flag. -/
structure VimbaImageCapture where
  hasCaptureSession : Bool
  _fileFormat : FileFormat
  _id : Nat
  _image : Option Arr
  _capturing : Bool
  deriving DecidableEq

namespace VimbaImageCapture

/-- Embeds `VimbaImageCapture.captureToFile` from `civiq6/capture.py` lines
294-317.  Returns the Python return value, the new state, and the file
write performed (`none` when nothing was written, `some (path, image)`
for `cv2.imwrite(path, image)`).  With no session or no pending image it
returns `-1` untouched; otherwise it writes
`location + os.extsep + extension`, returns the current `_id`, increments
`_id`, and clears `_image` (and `_capturing` ends `False`). -/
def captureToFile (cap : VimbaImageCapture) (location : String) :
    Int × VimbaImageCapture × Option (String × Arr) :=
  if !cap.hasCaptureSession then
    (-1, cap, none)
  else
    match cap._image with
    | none => (-1, cap, none)
    | some img =>
      let path := location ++ "." ++ fileFormatExtension cap._fileFormat
      ((cap._id : Int),
        { cap with _id := cap._id + 1, _image := none, _capturing := false },
        some (path, img))

/-- Embeds `VimbaImageCapture._setArray` from `civiq6/capture.py` lines 319-322:
stores the frame as the pending image unless a capture is in progress. -/
def _setArray (cap : VimbaImageCapture) (array : Arr) : VimbaImageCapture :=
  if !cap._capturing then { cap with _image := some array } else cap

end VimbaImageCapture

/-! ## Helper lemmas -/

/-- A `setActive` call never changes device availability. -/
theorem setActive_available (c : VimbaCamera) (b : Bool) :
    (c.setActive b).1.available = c.available := by
  unfold VimbaCamera.setActive
  split_ifs <;> rfl

/-- On an available camera, a `setActive b` call leaves the active flag
equal to `b`. -/
theorem setActive_active (c : VimbaCamera) (b : Bool) (h : c.available = true) :
    (c.setActive b).1.active = b := by
  cases hc : c.active <;> cases b <;>
    simp [VimbaCamera.setActive, h, hc]

/-- Folding `setActive` calls from any accumulator: the final active flag
is the last requested value (or the starting flag for the empty list). -/
theorem foldl_stepCall_active (ops : List Bool) (p : VimbaCamera × Nat)
    (h : p.1.available = true) :
    (ops.foldl VimbaCamera.stepCall p).1.active = ops.getLastD p.1.active := by
  induction ops generalizing p with
  | nil => rfl
  | cons b ops ih =>
    rw [List.foldl_cons, List.getLastD_cons]
    have h2 : (VimbaCamera.stepCall p b).1.available = true := by
      unfold VimbaCamera.stepCall
      rw [setActive_available]
      exact h
    rw [ih _ h2]
    unfold VimbaCamera.stepCall
    rw [setActive_active _ _ h]

/-- On the unbounded queue (`maxsize = 0`), `queue_frame` appends every
completed frame and preserves the maxsize. -/
theorem queue_frame_maxzero (q : PyQueue Frame) (f : Frame)
    (h : q.maxsize = 0) :
    (FrameProducer.queue_frame q FrameStatus.Complete f).items = q.items ++ [f] ∧
    (FrameProducer.queue_frame q FrameStatus.Complete f).maxsize = 0 := by
  unfold FrameProducer.queue_frame PyQueue.full PyQueue.putNowait
  simp [h]

/-- Feeding `frames` into the unbounded queue grows it by `frames.length`. -/
theorem feedFrames_length (frames : List Frame) (q : PyQueue Frame)
    (h : q.maxsize = 0) :
    (FrameProducer.feedFrames q frames).items.length
      = q.items.length + frames.length := by
  induction frames generalizing q with
  | nil => simp [FrameProducer.feedFrames]
  | cons f fs ih =>
    unfold FrameProducer.feedFrames at ih ⊢
    rw [List.foldl_cons]
    rw [ih _ (queue_frame_maxzero q f h).2]
    rw [(queue_frame_maxzero q f h).1]
    simp
    omega

/-- Case analysis of `record`: it either does nothing and emits nothing,
or it starts from `StoppedState` and ends `RecordingState` emitting once,
or it resumes from `PausedState` emitting once. -/
theorem record_result (r : VimbaVideoRecorder)
    (env : VimbaVideoRecorder.RecordEnv) :
    r.record env = (r, 0) ∨
    (r.recorderState = RecorderState.StoppedState ∧
      (r.record env).1.recorderState = RecorderState.RecordingState ∧
      (r.record env).2 = 1) ∨
    (r.recorderState = RecorderState.PausedState ∧
      r.record env = ({ r with recorderState := RecorderState.RecordingState }, 1)) := by
  unfold VimbaVideoRecorder.record
  split
  · next hstop =>
    split
    · exact Or.inl rfl
    · exact Or.inl rfl
    · dsimp only
      split
      · exact Or.inl rfl
      · split
        · exact Or.inl rfl
        · split
          · exact Or.inl rfl
          · exact Or.inr (Or.inl ⟨hstop, rfl, rfl⟩)
  · split
    · next hp => exact Or.inr (Or.inr ⟨hp, rfl⟩)
    · exact Or.inl rfl

/-! ## Claims -/

/-- C1: a frame whose pixel format is absent from `COMPATIBLE_FORMATS`
never reaches the video-output sink — the sink is handed only an
invalid-format placeholder `QVideoFrame` that carries none of the frame's
data (the map-and-copy conversion is skipped) — while the image capturer
and the recorder still receive the frame itself from `_setFrame`, and the
array sink (of the `civiq6/capture.py` session, which routes arrays via
`_setArray`) still receives every frame array. -/
theorem C1_unsupported_format_skips_video_sink (frame : Frame) (array : Arr)
    (h : COMPATIBLE_FORMATS frame.pixelFormat = none) :
    (VimbaCaptureSession._setFrame true true true frame).imageCaptureGot = some frame ∧
    (VimbaCaptureSession._setFrame true true true frame).recorderGot = some frame ∧
    (VimbaCaptureSession._setFrame true true true frame).videoSinkGot =
      some { format := QVideoPixelFormat.Format_Invalid
             width := frame.width
             height := frame.height
             data := none } ∧
    (∀ vf, (VimbaCaptureSession._setFrame true true true frame).videoSinkGot = some vf →
      vf.data = none) ∧
    (VimbaCaptureSession._setArray true true true array).arraySinkGot = some array ∧
    (VimbaCaptureSession._setArray true true true array).imageCaptureGot = some array ∧
    (VimbaCaptureSession._setArray true true true array).recorderGot = some array := by
  unfold VimbaCaptureSession._setFrame VimbaCaptureSession._setArray
  simp [h]

/-- Witness for C1 at a concrete `Bgr8` frame (a format absent from the
translation table) and a concrete array. -/
theorem C1_unsupported_format_skips_video_sink_witness :
    COMPATIBLE_FORMATS PixelFormat.Bgr8 = none ∧
    (VimbaCaptureSession._setFrame true true true
        { pixelFormat := PixelFormat.Bgr8, width := 2, height := 1, buffer := [9, 9] }).videoSinkGot =
      some { format := QVideoPixelFormat.Format_Invalid
             width := 2
             height := 1
             data := none } ∧
    (VimbaCaptureSession._setFrame true true true
        { pixelFormat := PixelFormat.Bgr8, width := 2, height := 1, buffer := [9, 9] }).recorderGot =
      some { pixelFormat := PixelFormat.Bgr8, width := 2, height := 1, buffer := [9, 9] } := by
  have h := C1_unsupported_format_skips_video_sink
    { pixelFormat := PixelFormat.Bgr8, width := 2, height := 1, buffer := [9, 9] } [4] rfl
  exact ⟨rfl, h.2.2.1, h.2.1⟩

/-- C3 counterexample: when the SDK call `start_streaming` raises inside
the producer's `run`, the readiness signal is NOT emitted (the
`ready.emit()` sits after `start_streaming` inside the `try` block), so
the claim that readiness is still signaled on SDK start failure is false
at this concrete input. -/
theorem C3_sdk_start_failure_no_ready :
    (FrameProducer.run (some { camId := "cam0", startRaises := true })).readyEmitted = false ∧
    (StreamingThread.run (some { camId := "cam0", startRaises := true })).readyEmitted = false :=
  ⟨rfl, rfl⟩

/-- C3 (amended): readiness is still emitted when the camera handle is
absent (`None`) — unblocking waiters with no frames ever arriving — and
on a successful start; but when the SDK start call raises, readiness is
NOT emitted (only the `finally` block's `stop_streaming` still runs and
the exception propagates). -/
theorem C3_ready_emission_semantics (camera : Option CameraHandle) :
    (camera = none →
      (FrameProducer.run camera).readyEmitted = true ∧
      (FrameProducer.run camera).streamingStarted = false ∧
      (StreamingThread.run camera).readyEmitted = true) ∧
    (∀ c, camera = some c → c.startRaises = true →
      (FrameProducer.run camera).readyEmitted = false ∧
      (FrameProducer.run camera).stopStreamingCalled = true ∧
      (FrameProducer.run camera).raised = true ∧
      (StreamingThread.run camera).readyEmitted = false ∧
      (StreamingThread.run camera).stopStreamingCalled = true ∧
      (StreamingThread.run camera).raised = true) ∧
    (∀ c, camera = some c → c.startRaises = false →
      (FrameProducer.run camera).readyEmitted = true ∧
      (FrameProducer.run camera).streamingStarted = true ∧
      (StreamingThread.run camera).readyEmitted = true) := by
  refine ⟨?_, ?_, ?_⟩
  · intro h
    subst h
    exact ⟨rfl, rfl, rfl⟩
  · intro c h hr
    subst h
    simp [FrameProducer.run, StreamingThread.run, hr]
  · intro c h hr
    subst h
    simp [FrameProducer.run, StreamingThread.run, hr]

/-- Witness for C3's amended theorem at a raising and an absent camera. -/
theorem C3_ready_emission_semantics_witness :
    (FrameProducer.run (some { camId := "cam1", startRaises := true })).readyEmitted = false ∧
    (FrameProducer.run (some { camId := "cam1", startRaises := true })).stopStreamingCalled = true ∧
    (FrameProducer.run none).readyEmitted = true := by
  have h1 := (C3_ready_emission_semantics
    (some { camId := "cam1", startRaises := true })).2.1 _ rfl rfl
  have h2 := (C3_ready_emission_semantics none).1 rfl
  exact ⟨h1.1, h1.2.1, h2.1⟩

/-- C4 (code evaluated at the failing input): the frame queue constructed
by `VimbaCamera.__init__` is `queue.Queue()` with `maxsize = 0`, i.e.
unbounded.  Every completed frame is enqueued — `queue.full()` is always
false — so after `n` frames the queue holds `n` items, and no fixed
capacity bounds the queue. -/
theorem C4_frame_queue_unbounded :
    (∀ frames : List Frame,
      (FrameProducer.feedFrames FrameProducer.frameQueueInit frames).items.length
        = frames.length) ∧
    ¬ ∃ cap : Nat, ∀ frames : List Frame,
      (FrameProducer.feedFrames FrameProducer.frameQueueInit frames).items.length ≤ cap := by
  have hlen : ∀ frames : List Frame,
      (FrameProducer.feedFrames FrameProducer.frameQueueInit frames).items.length
        = frames.length := by
    intro frames
    rw [feedFrames_length frames FrameProducer.frameQueueInit rfl]
    simp [FrameProducer.frameQueueInit]
  refine ⟨hlen, ?_⟩
  rintro ⟨cap, hcap⟩
  have h1 := hcap (List.replicate (cap + 1)
    { pixelFormat := PixelFormat.Mono8, width := 0, height := 0, buffer := [] })
  rw [hlen, List.length_replicate] at h1
  omega

/-- C8: `defaultVideoInput` returns the first enumerated device and a null
device when the list is empty; for device list `[A, B]` it returns `A`,
and after a `Missing` hot-plug event re-enumerates the list to `[B]` it
returns `B`. -/
theorem C8_default_video_input (d A B : VimbaCameraDevice)
    (rest : List VimbaCameraDevice) :
    VimbaDevices.defaultVideoInput (d :: rest) = d ∧
    (VimbaDevices.defaultVideoInput []).isNull = true ∧
    VimbaDevices.defaultVideoInput [] = VimbaCameraDevice.null ∧
    VimbaDevices.defaultVideoInput [A, B] = A ∧
    VimbaDevices.defaultVideoInput
      (VimbaRunner.cameraChangeHandler CameraEvent.Missing [B] [A, B]) = B :=
  ⟨rfl, rfl, rfl, rfl, rfl⟩

/-- C9: whatever the camera handle reports, the `VimbaCameraFormat`
returned by `cameraFormat` has `resolution()` equal to `QSize(-1, -1)`,
because `_setResolution` writes the misspelled attribute `_resoultion`
(which does receive the camera's true width and height) while
`resolution()` reads `_resolution`, which keeps its constructor value. -/
theorem C9_camera_format_resolution_unobservable :
    (∀ camera : Option CamFeatures,
      (VimbaCamera.cameraFormat camera).resolution = (-1, -1)) ∧
    (∀ c : CamFeatures,
      (VimbaCamera.cameraFormat (some c))._resoultion = some (c.width, c.height)) := by
  constructor
  · intro camera
    cases camera <;> rfl
  · intro c
    rfl

/-- C2: every `record`/`pause`/`stop` call makes only transitions of the
graph `Stopped→Recording→(Paused⇄Recording)→Stopped` (or stays put);
`record()` while Recording, and `pause()`/`stop()` while Stopped, leave
the recorder unchanged and emit nothing; and each call emits
`recorderStateChanged` exactly once when the state changes and never
otherwise. -/
theorem C2_recorder_state_transitions (r : VimbaVideoRecorder)
    (env : VimbaVideoRecorder.RecordEnv) :
    (allowedRecorderStep r.recorderState (r.record env).1.recorderState ∧
      allowedRecorderStep r.recorderState r.pause.1.recorderState ∧
      allowedRecorderStep r.recorderState r.stop.1.recorderState) ∧
    (r.recorderState = RecorderState.RecordingState → r.record env = (r, 0)) ∧
    (r.recorderState = RecorderState.StoppedState →
      r.pause = (r, 0) ∧ r.stop = (r, 0)) ∧
    ((r.record env).2
      = if (r.record env).1.recorderState ≠ r.recorderState then 1 else 0) ∧
    (r.pause.2 = if r.pause.1.recorderState ≠ r.recorderState then 1 else 0) ∧
    (r.stop.2 = if r.stop.1.recorderState ≠ r.recorderState then 1 else 0) := by
  refine ⟨⟨?_, ?_, ?_⟩, ?_, ?_, ?_, ?_, ?_⟩
  · rcases record_result r env with heq | ⟨h1, h2, h3⟩ | ⟨h1, heq⟩
    · rw [heq]
      simp [allowedRecorderStep]
    · rw [h2, h1]
      simp [allowedRecorderStep]
    · rw [heq, h1]
      simp [allowedRecorderStep]
  · rcases hst : r.recorderState with _ | _ | _ <;>
      simp [VimbaVideoRecorder.pause, hst, allowedRecorderStep]
  · rcases hst : r.recorderState with _ | _ | _ <;>
      simp [VimbaVideoRecorder.stop, hst, allowedRecorderStep]
  · intro h
    simp [VimbaVideoRecorder.record, h]
  · intro h
    constructor <;>
      simp [VimbaVideoRecorder.pause, VimbaVideoRecorder.stop, h]
  · rcases record_result r env with heq | ⟨h1, h2, h3⟩ | ⟨h1, heq⟩
    · rw [heq]
      simp
    · rw [h3, h2, h1]
      simp
    · rw [heq, h1]
      simp
  · rcases hst : r.recorderState with _ | _ | _ <;>
      simp [VimbaVideoRecorder.pause, hst]
  · rcases hst : r.recorderState with _ | _ | _ <;>
      simp [VimbaVideoRecorder.stop, hst]

/-- Witness for C2: `record()` on a Recording recorder is a silent no-op,
as are `pause()` and `stop()` on the freshly constructed (Stopped)
recorder. -/
theorem C2_recorder_state_transitions_witness :
    ({ VimbaVideoRecorder.init with
        recorderState := RecorderState.RecordingState } :
      VimbaVideoRecorder).record none =
      ({ VimbaVideoRecorder.init with
          recorderState := RecorderState.RecordingState }, 0) ∧
    VimbaVideoRecorder.init.pause = (VimbaVideoRecorder.init, 0) ∧
    VimbaVideoRecorder.init.stop = (VimbaVideoRecorder.init, 0) := by
  have h1 := (C2_recorder_state_transitions
    { VimbaVideoRecorder.init with
        recorderState := RecorderState.RecordingState } none).2.1 rfl
  have h2 := (C2_recorder_state_transitions VimbaVideoRecorder.init none).2.2.1 rfl
  exact ⟨h1, h2.1, h2.2⟩

/-- C5: on an available camera the active flag after any sequence of
`start()`/`stop()` (`setActive`) calls equals the last requested value
(the net effect); a second consecutive identical call changes nothing and
emits nothing; and each single call either is a silent no-op (flag
already equal) or flips the flag and emits `activeChanged` exactly
once. -/
theorem C5_active_net_effect (c : VimbaCamera) (ops : List Bool)
    (h : c.available = true) :
    (VimbaCamera.applyCalls c ops).1.active = ops.getLastD c.active ∧
    (∀ b, (c.setActive b).1.setActive b = ((c.setActive b).1, 0)) ∧
    (∀ b, c.setActive b =
      if c.active = b then (c, 0) else ({ c with active := b }, 1)) := by
  refine ⟨?_, ?_, ?_⟩
  · unfold VimbaCamera.applyCalls
    exact foldl_stepCall_active ops (c, 0) h
  · intro b
    have hav := setActive_available c b
    rw [h] at hav
    have hac := setActive_active c b h
    obtain ⟨d, hd⟩ : ∃ d, (c.setActive b).1 = d := ⟨_, rfl⟩
    rw [hd] at hav hac ⊢
    cases b <;> simp [VimbaCamera.setActive, hav, hac]
  · intro b
    cases hc : c.active <;> cases b <;>
      simp [VimbaCamera.setActive, h, hc]

/-- Witness for C5: two consecutive `start()` calls on an available,
initially inactive camera leave it active, like a single one. -/
theorem C5_active_net_effect_witness :
    ({ available := true, active := false } : VimbaCamera).available = true ∧
    (VimbaCamera.applyCalls { available := true, active := false }
      [true, true]).1.active = true := by
  have h := (C5_active_net_effect
    { available := true, active := false } [true, true] rfl).1
  exact ⟨rfl, by simpa using h⟩

/-- C6: a recorder configured with explicit resolution `(640, 480)` and
frame rate `0` (inherit), attached through a session to a camera whose
native frame rate is `30`, opens the video writer on `record()` with fps
`30` and size `(640, 480)` and moves to Recording, emitting once. -/
theorem C6_record_inherits_frame_rate :
    ({ VimbaVideoRecorder.init with
        outputLocation := "video", resWidth := 640, resHeight := 480 } :
      VimbaVideoRecorder).record
      (some (some
        { camera := some
            { acquisitionFrameRate := 30, width := 1920, height := 1080,
              pixelFormat := PixelFormat.Mono8 }
          id := "cam0"
          desc := "camera" })) =
      ({ VimbaVideoRecorder.init with
          outputLocation := "video"
          resWidth := 640
          resHeight := 480
          recorderState := RecorderState.RecordingState
          writer := some
            { path := "video.mp4", fourcc := "mp4v", fps := 30,
              width := 640, height := 480, isColor := false }
          actualLocation := some "video.mp4" }, 1) := by
  decide

/-- C7: switching a session's camera detaches the old camera — its
`captureSession()` becomes `None` — attaches the new camera to this
session, and afterwards every camera's `captureSession()` reference names
at most one session ("connected to" in the sense of the repository's own
`VimbaCamera.captureSession` docstring). -/
theorem C7_set_camera_detaches (w : World) (s old new : String)
    (hold : w.sessionCamera s = some old) (hne : old ≠ new) :
    (w.setCamera s (some new)).cameraSession old = none ∧
    (w.setCamera s (some new)).cameraSession new = some s ∧
    (w.setCamera s (some new)).sessionCamera s = some new ∧
    (∀ cam t1 t2,
      (w.setCamera s (some new)).cameraSession cam = some t1 →
      (w.setCamera s (some new)).cameraSession cam = some t2 → t1 = t2) := by
  unfold World.setCamera
  rw [hold]
  refine ⟨?_, ?_, ?_, ?_⟩
  · simp [hne]
  · simp
  · simp
  · intro cam t1 t2 h1 h2
    rw [h1] at h2
    exact Option.some.inj h2

/-- Witness for C7 on a concrete world where session `s1` holds `camA`
and then switches to `camB`. -/
theorem C7_set_camera_detaches_witness :
    exampleWorld.sessionCamera "s1" = some "camA" ∧
    (exampleWorld.setCamera "s1" (some "camB")).cameraSession "camA" = none ∧
    (exampleWorld.setCamera "s1" (some "camB")).cameraSession "camB" = some "s1" := by
  have h := C7_set_camera_detaches exampleWorld "s1" "camA" "camB" rfl (by decide)
  exact ⟨rfl, h.1, h.2.1⟩

/-- C10: `captureToFile` returns `-1` and writes nothing when no capture
session is set or no frame is pending; a successful call returns the
current id, increments the id counter, writes exactly one file with the
pending frame, and clears the pending frame — so an immediate second call
with no frame delivered in between returns `-1` and writes nothing. -/
theorem C10_capture_to_file (cap : VimbaImageCapture) (loc loc2 : String) :
    (cap.hasCaptureSession = false → cap.captureToFile loc = (-1, cap, none)) ∧
    (cap._image = none → cap.captureToFile loc = (-1, cap, none)) ∧
    (∀ img, cap.hasCaptureSession = true → cap._image = some img →
      cap.captureToFile loc =
        ((cap._id : Int),
          { cap with _id := cap._id + 1, _image := none, _capturing := false },
          some (loc ++ "." ++ fileFormatExtension cap._fileFormat, img)) ∧
      (cap.captureToFile loc).2.1.captureToFile loc2 =
        (-1, (cap.captureToFile loc).2.1, none)) := by
  refine ⟨?_, ?_, ?_⟩
  · intro h
    simp [VimbaImageCapture.captureToFile, h]
  · intro h
    cases hs : cap.hasCaptureSession <;>
      simp [VimbaImageCapture.captureToFile, h, hs]
  · intro img h1 h2
    have hfst : cap.captureToFile loc =
        ((cap._id : Int),
          { cap with _id := cap._id + 1, _image := none, _capturing := false },
          some (loc ++ "." ++ fileFormatExtension cap._fileFormat, img)) := by
      simp [VimbaImageCapture.captureToFile, h1, h2]
    refine ⟨hfst, ?_⟩
    rw [hfst]
    simp [VimbaImageCapture.captureToFile, h1]

/-- Witness for C10: one pending frame, session set; the first call
returns id 0 and the second call returns `-1` without writing. -/
theorem C10_capture_to_file_witness :
    (({ hasCaptureSession := true, _fileFormat := FileFormat.JPEG, _id := 0,
         _image := some [1, 2], _capturing := false } :
        VimbaImageCapture).captureToFile "img").1 = 0 ∧
    (({ hasCaptureSession := true, _fileFormat := FileFormat.JPEG, _id := 0,
         _image := some [1, 2], _capturing := false } :
        VimbaImageCapture).captureToFile "img").2.1.captureToFile "img2" =
      (-1,
        (({ hasCaptureSession := true, _fileFormat := FileFormat.JPEG, _id := 0,
             _image := some [1, 2], _capturing := false } :
            VimbaImageCapture).captureToFile "img").2.1, none) := by
  have h := (C10_capture_to_file
    { hasCaptureSession := true, _fileFormat := FileFormat.JPEG, _id := 0,
      _image := some [1, 2], _capturing := false } "img" "img2").2.2 [1, 2] rfl rfl
  exact ⟨by rw [h.1]; rfl, h.2⟩

end Civiq
